import Mathlib

/-!
Verification of the query-routing and deterministic answer-formatting pipeline
of the metadata-tagging demo (src/utils/agent_builder.py, with the regulatory
metric filter from src/utils/semantic_layer_builder.py and the raw search
helpers from src/utils/raw_search_{pii,aml,reg}.py).

Shallow-embedding conventions, used throughout:

* Python strings are Lean `String`s viewed as their `data : List Char`
  (code points).  Python's `in`, `lower()`, `upper()`, `strip()`, `title()`,
  slicing and `split` are re-implemented below on `List Char` with ASCII
  semantics (the repository's trigger keywords and templates are ASCII; the
  source file itself is mojibake-encoded, and the multi-byte sequences such
  as the bullet are copied verbatim so outputs match what Python produces
  byte for byte when reading the file as UTF-8).
* A Python value that can sit in a result dict is a `PyVal`: a string, an
  integer (the demo's numeric cells are modelled as integers, which print
  exactly as Python ints do), the pandas missing value NaN (whose `str()` is
  "nan" and which is *truthy*), `None`, or a list.  Dict fields that may be
  absent are `Option PyVal` with `none` = key absent (`dict.get` then yields
  Python `None`, i.e. `PyVal.vnone`).
* A pandas DataFrame cell (as produced by `pd.read_csv` + `to_dict("records")`)
  is a `Cell`: a string, an integer, or NaN (a blank / absent CSV cell).
* Operations that raise in Python (e.g. `.lower()` on a float, slicing a
  float) return `Except Unit`; `.error ()` models an uncaught exception.
* The external tagged search tools (`utils.tagging_wrappers`, not part of the
  analysed sources) are environment parameters: arbitrary functions from the
  query string to a list-shaped, dict-shaped, raising, or otherwise-shaped
  response, exactly the shapes the adapters in agent_builder.py distinguish.
-/

namespace MetaTag

/-- Characters removed by Python's argument-less `str.strip()` (ASCII part). -/
def pyIsSpace (c : Char) : Bool :=
  c = ' ' || c = '\t' || c = '\n' || c = '\r' || c = Char.ofNat 11 || c = Char.ofNat 12

/-- Python `s.strip()` on a character list. -/
def pyStripL (l : List Char) : List Char :=
  ((l.dropWhile pyIsSpace).reverse.dropWhile pyIsSpace).reverse

/-- Python `s.rstrip()` on a character list. -/
def pyRStripL (l : List Char) : List Char :=
  (l.reverse.dropWhile pyIsSpace).reverse

/-- Build a `String` from its code points. -/
def strOf (l : List Char) : String := ⟨l⟩

/-- Python `s.strip()`. -/
def pyStrip (s : String) : String := strOf (pyStripL s.data)

/-- Python `s.rstrip()`. -/
def pyRStrip (s : String) : String := strOf (pyRStripL s.data)

/-- Python `s.lower()` (ASCII). -/
def pyLower (s : String) : String := strOf (s.data.map Char.toLower)

/-- Python `s.upper()` (ASCII). -/
def pyUpper (s : String) : String := strOf (s.data.map Char.toUpper)

/-- Python `s[:n]` for a non-negative `n`. -/
def pyTake (s : String) (n : Nat) : String := strOf (s.data.take n)

/-- Is `n` a prefix of `h`? -/
def isPreL : List Char → List Char → Bool
  | [], _ => true
  | _ :: _, [] => false
  | a :: as, b :: bs => a == b && isPreL as bs

/-- Does `n` occur as a contiguous segment of the second list? -/
def containsL (n : List Char) : List Char → Bool
  | [] => isPreL n []
  | c :: t => isPreL n (c :: t) || containsL n t

/-- Python `needle in hay` on strings (substring containment). -/
def strContains (hay needle : String) : Bool := containsL needle.data hay.data

/-- Python `s.replace(a, b)` for single characters (the code only replaces
the single character "\n" by a space). -/
def pyReplaceChar (a b : Char) (s : String) : String :=
  strOf (s.data.map fun c => if c = a then b else c)

/-- Python `sep.join(xs)`. -/
def pyJoin (sep : String) : List String → String
  | [] => ""
  | [x] => x
  | x :: y :: xs => x ++ sep ++ pyJoin sep (y :: xs)

/-- Helper for Python `s.title()`: the boolean records whether the previous
character was alphabetic (ASCII approximation of "cased"). -/
def pyTitleL : Bool → List Char → List Char
  | _, [] => []
  | prev, c :: t =>
    if c.isAlpha then (if prev then c.toLower else c.toUpper) :: pyTitleL true t
    else c :: pyTitleL false t

/-- Python `s.title()` (ASCII). -/
def pyTitle (s : String) : String := strOf (pyTitleL false s.data)

/-- Strip a given character from both ends, Python `s.strip(c)`. -/
def stripCharL (q : Char) (l : List Char) : List Char :=
  ((l.dropWhile (· == q)).reverse.dropWhile (· == q)).reverse

/-- Python `s.strip(c)` for one character. -/
def pyStripChar (q : Char) (s : String) : String := strOf (stripCharL q s.data)

/-- Python `s.split(c)` for a one-character separator. -/
def splitCharL (q : Char) : List Char → List (List Char)
  | [] => [[]]
  | c :: t =>
    if c = q then [] :: splitCharL q t
    else
      match splitCharL q t with
      | [] => [[c]]
      | g :: gs => (c :: g) :: gs

/-! ### Python values in result dicts -/

/-- A Python value occurring in the tool-result dicts of agent_builder.py. -/
inductive PyVal where
  | vstr (s : String)
  | vint (n : Int)
  | vnan
  | vnone
  | vlist (xs : List PyVal)
deriving Repr

/-- Python truthiness.  Note that the float NaN is truthy. -/
def pyTruthy : PyVal → Bool
  | .vstr s => !(s == "")
  | .vint n => !(n == 0)
  | .vnan => true
  | .vnone => false
  | .vlist xs => !xs.isEmpty

/-- Python `str(v)`.  Ints print as Python ints, NaN prints "nan", None
prints "None".  The list case never occurs in any reachable display path of
the claims and is given a placeholder rendering. -/
def pyStrV : PyVal → String
  | .vstr s => s
  | .vint n => toString n
  | .vnan => "nan"
  | .vnone => "None"
  | .vlist _ => "[...]"

/-- Python `d.get(k)` where `none` models an absent key. -/
def pyGet (f : Option PyVal) : PyVal := f.getD .vnone

/-- Python `d.get(k, default)`. -/
def pyGetD (f : Option PyVal) (d : PyVal) : PyVal := f.getD d

/-- Python `a or b` (value-returning, short-circuit on truthiness). -/
def pyOr (a b : PyVal) : PyVal := if pyTruthy a then a else b

/-- The label-cleaning step of `_to_list`:
`str(v).strip().strip("'").strip('"')`. -/
def cleanLabel (s : String) : String :=
  pyStripChar (Char.ofNat 34) (pyStripChar (Char.ofNat 39) (pyStrip s))

/-- Embedding of agent_builder.`_to_list`.  The `json.loads` tolerance for
bracket-delimited strings is modelled by its failure fallback (the comma
split below), which is what the Python code does whenever the JSON parse
fails; no claim exercises a bracket-delimited string value. -/
def toListOfLabels : PyVal → List String
  | .vnone => []
  | .vlist xs =>
      (xs.filter fun v => !(pyStrip (pyStrV v) == "")).map fun v => cleanLabel (pyStrV v)
  | .vstr s0 =>
      let s := pyStrip s0
      if s == "" then []
      else if strContains s "," then
        ((splitCharL ',' s.data).map fun l => cleanLabel (strOf l)).filter fun p => !(p == "")
      else [cleanLabel s]
  | v => [cleanLabel (pyStrV v)]

/-! ### Intent router and transaction-id extraction -/

/-- The five intents returned by `simple_intent_router`. -/
inductive Intent where
  | PII_SEARCH
  | AML_SEARCH
  | REG_SEARCH
  | SAR_DRAFT
  | OUT_OF_SCOPE
deriving DecidableEq, Repr

/-- The rule chain of `simple_intent_router` applied to the already
lower-cased query, one `if` per Python `if`, in source order. -/
def routerOn (q : String) : Intent :=
  if strContains q "nric" || strContains q "salary" || strContains q "pii" ||
      strContains q "chats" || strContains q "messages" then .PII_SEARCH
  else if strContains q "structuring" || strContains q "crypto" ||
      strContains q "high-risk" || strContains q "high risk" then .AML_SEARCH
  else if strContains q "transactions" && (strContains q "risk" || strContains q "crypto") then
    .AML_SEARCH
  else if strContains q "mas 610" || (strContains q "mas" && strContains q "610") ||
      strContains q "suspicious transactions" then .REG_SEARCH
  else if strContains q "sar" && strContains q "t028" then .SAR_DRAFT
  else .OUT_OF_SCOPE

/-- Embedding of agent_builder.`simple_intent_router`. -/
def simple_intent_router (query : String) : Intent := routerOn (pyLower query)

/-- The spec's five routing rules, written as the spec states them
(section 4.1), on the lower-cased query.  Rule 2's two clauses are one rule;
rule 4's "contains a transaction-id pattern equal to T028" is containment of
the four-character pattern "t028" in the lower-cased query (the letter is
matched case-insensitively). -/
def specRulesOn (q : String) : Intent :=
  if strContains q "nric" || strContains q "salary" || strContains q "pii" ||
      strContains q "chats" || strContains q "messages" then .PII_SEARCH
  else if (strContains q "structuring" || strContains q "crypto" ||
      strContains q "high-risk" || strContains q "high risk") ||
      (strContains q "transactions" && (strContains q "risk" || strContains q "crypto")) then
    .AML_SEARCH
  else if strContains q "mas 610" || (strContains q "mas" && strContains q "610") ||
      strContains q "suspicious transactions" then .REG_SEARCH
  else if strContains q "sar" && strContains q "t028" then .SAR_DRAFT
  else .OUT_OF_SCOPE

/-- The spec's classifier: the five rules in first-match precedence on the
lower-cased query. -/
def classify_spec (query : String) : Intent := specRulesOn (pyLower query)

/-- The five PII keywords of routing rule 1 as one trigger condition. -/
def piiTrigger (q : String) : Bool :=
  strContains q "nric" || strContains q "salary" || strContains q "pii" ||
    strContains q "chats" || strContains q "messages"

/-- Python regex word character (ASCII): letters, digits, underscore. -/
def isWordChar (c : Char) : Bool := c.isAlphanum || c = '_'

/-- Scanner for the regex `\bT\d+\b` over the upper-cased query, leftmost
match.  The boolean says whether the previous character was a word character
(so a `T` may only start a match after a non-word character or at the start).
Backtracking inside `\d+` can never rescue a failed trailing `\b` (a shorter
digit run is followed by a digit, a word character), so taking the maximal
digit run and then moving the start one character right is exactly
`re.search`. -/
def findTxL : Bool → List Char → Option (List Char)
  | _, [] => none
  | prevWord, c :: rest =>
    if !prevWord && c = 'T' then
      let ds := rest.takeWhile Char.isDigit
      if !ds.isEmpty &&
          (match rest.drop ds.length with
           | [] => true
           | d :: _ => !isWordChar d) then
        some ('T' :: ds)
      else findTxL (isWordChar c) rest
    else findTxL (isWordChar c) rest

/-- Embedding of agent_builder.`extract_tx_id`:
`re.search(r"\bT\d+\b", query.upper())`, group text or "". -/
def extract_tx_id (query : String) : String :=
  match findTxL false (pyUpper query).data with
  | some l => strOf l
  | none => ""

/-- Scanner for the claim's reading of extraction: first substring matching
`T\d+` (no word boundaries), leftmost, maximal digit run. -/
def findTxAnyL : List Char → Option (List Char)
  | [] => none
  | c :: rest =>
    if c = 'T' && !(rest.takeWhile Char.isDigit).isEmpty then
      some ('T' :: rest.takeWhile Char.isDigit)
    else findTxAnyL rest

/-- The claim's extraction: the first substring of the upper-cased query
matching "one letter T followed by one or more digits", with no word-boundary
requirement (this is the spec's wording, formalised literally for
comparison with `extract_tx_id`). -/
def spec_extract_tx_id (query : String) : String :=
  match findTxAnyL (pyUpper query).data with
  | some l => strOf l
  | none => ""

/-! ### DataFrame cells and the tagged regulatory table -/

/-- A pandas DataFrame cell as seen after `pd.read_csv` and
`to_dict("records")`: a string, a number (modelled as an integer), or the
missing value NaN (a blank or absent CSV cell). -/
inductive Cell where
  | cstr (s : String)
  | cint (n : Int)
  | cnan
deriving DecidableEq, Repr

/-- View a cell as the Python value stored in the records dict. -/
def cellPy : Cell → PyVal
  | .cstr s => .vstr s
  | .cint n => .vint n
  | .cnan => .vnan

/-- Python `str(cell)` / pandas `astype(str)`: `str(nan)` is "nan". -/
def cellStr (c : Cell) : String := pyStrV (cellPy c)

/-- Is the cell pandas-missing (`isna`)? -/
def cellIsNA : Cell → Bool
  | .cnan => true
  | _ => false

/-- A row of outputs/tagged_regulatory.csv as a records dict (fixed columns,
possibly-NaN cells), the shape `query_regulations` returns. -/
structure RegRow where
  paragraph_id : Cell := .cnan
  source_document : Cell := .cnan
  regulation : Cell := .cnan
  risk_type : Cell := .cnan
  owner : Cell := .cnan
  deadline : Cell := .cnan
  paragraph_text : Cell := .cnan
deriving DecidableEq, Repr

/-- The filters dict accepted by `query_regulations`; `none` / `false`
model an absent or falsy key. -/
structure RegFilters where
  source_document : Option String := none
  risk_type : Option String := none
  missing_deadline : Bool := false
  missing_owner : Bool := false

/-- Pandas `col.str.contains(pat, case=False, na=False)` on one cell: a
missing or numeric cell is `False`; a string cell is matched
case-insensitively (the patterns used, "MAS Notice 610" and "suspicious",
contain no regex metacharacters, so containment is literal). -/
def cellContainsCI (c : Cell) (pat : String) : Bool :=
  match c with
  | .cstr s => strContains (pyLower s) (pyLower pat)
  | _ => false

/-- Embedding of semantic_layer_builder.`query_regulations` over the tagged
regulatory table (the post-`read_csv` DataFrame is the `table` argument; a
missing CSV file is the empty table, for which every filter chain yields
`[]` just as in the source). -/
def query_regulations (table : List RegRow) (f : RegFilters) : List RegRow :=
  let t1 := match f.source_document with
    | some p => if p == "" then table else table.filter fun r => cellContainsCI r.source_document p
    | none => table
  let t2 := match f.risk_type with
    | some p => if p == "" then t1 else t1.filter fun r => cellContainsCI r.risk_type p
    | none => t1
  let t3 := if f.missing_deadline then
      t2.filter fun r => cellIsNA r.deadline || pyStrip (cellStr r.deadline) == ""
    else t2
  if f.missing_owner then
    t3.filter fun r => cellIsNA r.owner || pyStrip (cellStr r.owner) == ""
  else t3

/-- The dict returned by `_reg_metric_answer` when a metric pattern fires. -/
structure MetricResult where
  answer : String
  matchList : List RegRow
  count : Nat
  tool_name : String
deriving DecidableEq, Repr

/-- The fixed sentence for zero matching obligations (two source literals
concatenated). -/
def noMatchSentence : String :=
  "In the tagged regulations, there are no suspicious-transaction obligations under MAS Notice 610 matching this filter."

/-- Python `value[:n]` on a dict value: slicing a non-string raises
(`reg[:160]` on a NaN regulation cell is an uncaught TypeError). -/
def pySliceVal (v : PyVal) (n : Nat) : Except Unit String :=
  match v with
  | .vstr s => .ok (pyTake s n)
  | _ => .error ()

/-- Effectful `List.mapM` for `Except Unit`, the loop that stops at the
first raised exception. -/
def mapMExcept {α β : Type} (f : α → Except Unit β) : List α → Except Unit (List β)
  | [] => .ok []
  | x :: xs =>
    match f x with
    | .error e => .error e
    | .ok y =>
      match mapMExcept f xs with
      | .error e => .error e
      | .ok ys => .ok (y :: ys)

/-- One example line of metric case 1: `f"- {pid}: {reg[:160]}"` with
`pid = r.get("paragraph_id") or "(no id)"` and
`reg = r.get("regulation") or r.get("paragraph_text") or ""`. -/
def metricExampleLine (r : RegRow) : Except Unit String :=
  match pySliceVal (pyOr (cellPy r.regulation) (pyOr (cellPy r.paragraph_text) (.vstr ""))) 160 with
  | .error e => .error e
  | .ok regSlice =>
    .ok ("- " ++ pyStrV (pyOr (cellPy r.paragraph_id) (.vstr "(no id)")) ++ ": " ++ regSlice)

/-- One example line of metric case 2. -/
def metricMissingLine (r : RegRow) : Except Unit String :=
  match pySliceVal (pyOr (cellPy r.regulation) (pyOr (cellPy r.paragraph_text) (.vstr ""))) 160 with
  | .error e => .error e
  | .ok regSlice =>
    .ok ("- " ++ pyStrV (pyOr (cellPy r.paragraph_id) (.vstr "(no id)")) ++ ": " ++ regSlice ++
      " â€¦ | owner=" ++ pyStrV (pyOr (cellPy r.owner) (.vstr "(missing)")) ++
      ", deadline=" ++ pyStrV (pyOr (cellPy r.deadline) (.vstr "(missing)")))

/-- The code's per-row deadline test in metric case 1:
`dl = str(r.get("deadline", "")).strip(); if dl:` — note that a NaN cell
stringifies to the non-blank "nan" and is counted. -/
def deadlineCounted (r : RegRow) : Bool :=
  !(pyStrip (cellStr r.deadline) == "")

/-- The code's owner-or-deadline-missing test in metric case 2 (string
coercion as above, so NaN cells are never "missing" here either). -/
def ownerOrDeadlineMissing (r : RegRow) : Bool :=
  pyStrip (cellStr r.owner) == "" || pyStrip (cellStr r.deadline) == ""

/-- Embedding of agent_builder.`_reg_metric_answer` over the tagged
regulatory table.  Returns `none` when no metric pattern fires, and raises
(`.error`) exactly where the Python raises. -/
def _reg_metric_answer (table : List RegRow) (query mode : String) :
    Except Unit (Option MetricResult) :=
  if mode == "no_layer" then .ok none else
  let q := pyLower query
  let is_mas_610 := strContains q "mas 610" || strContains q "mas notice 610"
  let is_suspicious := strContains q "suspicious"
  if !(is_mas_610 && is_suspicious) then .ok none else
  if (strContains q "how many" || strContains q "count") &&
      (strContains q "deadline" || strContains q "deadlines") then
    let rows := query_regulations table
      { source_document := some "MAS Notice 610", risk_type := some "suspicious" }
    let total := rows.length
    let with_deadline := (rows.filter deadlineCounted).length
    let without_deadline := total - with_deadline
    if total == 0 then
      .ok (some { answer := noMatchSentence, matchList := rows, count := total,
                  tool_name := "query_regulations" })
    else
      match mapMExcept metricExampleLine (rows.take 3) with
      | .error e => .error e
      | .ok example_bits =>
        let examples_str := if example_bits.isEmpty then "" else pyJoin "\n" example_bits
        let base := "Under MAS Notice 610, the tagged regulatory data shows **" ++
          toString total ++ "** suspicious-transaction obligations.\n\n" ++
          "- **With deadlines captured:** " ++ toString with_deadline ++ "\n" ++
          "- **Missing/blank deadlines:** " ++ toString without_deadline ++ "\n"
        let answer := if examples_str == "" then base
          else base ++ "\n**Examples (first few paragraphs):**\n" ++ examples_str
        .ok (some { answer := answer, matchList := rows, count := total,
                    tool_name := "query_regulations" })
  else if (strContains q "show" || strContains q "list") && strContains q "missing" &&
      (strContains q "owner" || strContains q "deadline") then
    let rows := query_regulations table
      { source_document := some "MAS Notice 610", risk_type := some "suspicious" }
    if rows.isEmpty then
      .ok (some { answer := noMatchSentence, matchList := [], count := 0,
                  tool_name := "query_regulations" })
    else
      let missing_info := rows.filter ownerOrDeadlineMissing
      let total := rows.length
      let missing_count := missing_info.length
      let headLines := ["From **MAS Notice 610**, there are **" ++ toString total ++
          "** tagged suspicious-transaction obligations.",
        "Out of these, **" ++ toString missing_count ++
          "** have a missing owner and/or deadline."]
      if missing_info.isEmpty then
        .ok (some { answer := pyJoin "\n" headLines, matchList := rows, count := total,
                    tool_name := "query_regulations" })
      else
        match mapMExcept metricMissingLine (missing_info.take 5) with
        | .error e => .error e
        | .ok exLines =>
          let allLines :=
            headLines ++ ["\n**Obligations with missing owner/deadline (first few):**"] ++ exLines
          .ok (some { answer := pyJoin "\n" allLines, matchList := rows, count := total,
                      tool_name := "query_regulations" })
  else .ok none

/-! ### The result-shape normalizer `_normalize_raw_result` -/

/-- An element of a hits list as the normalizer sees it: a record dict of
type `R`, or any non-dict value. -/
inductive RawElem (R : Type) where
  | recd (r : R)
  | nondict
deriving DecidableEq, Repr

/-- A value stored under a key of a dict-shaped raw result: a list of
elements, or anything else. -/
inductive RawField (R : Type) where
  | flist (xs : List (RawElem R))
  | fother
deriving DecidableEq, Repr

/-- A raw tool output as the normalizer sees it: a list, a dict (association
list with unique keys, in insertion order), or anything else. -/
inductive RawObj (R : Type) where
  | rlist (xs : List (RawElem R))
  | rdict (entries : List (String × RawField R))
  | rother
deriving DecidableEq, Repr

/-- Python `obj[k]` combined with `k in obj` on the modelled dict. -/
def lookupField {R : Type} (es : List (String × RawField R)) (k : String) :
    Option (RawField R) :=
  (es.find? fun e => e.1 == k).map (·.2)

/-- `[x for x in xs if isinstance(x, dict)]`. -/
def dictsOf {R : Type} (xs : List (RawElem R)) : List R :=
  xs.filterMap fun e => match e with | .recd r => some r | .nondict => none

/-- The key-candidate loop of `_normalize_raw_result`: the first candidate
key that is present with a list value wins; a present non-list value is
skipped. -/
def normDictLoop {R : Type} (es : List (String × RawField R)) : List String → List R
  | [] => []
  | k :: ks =>
    match lookupField es k with
    | some (.flist xs) => dictsOf xs
    | _ => normDictLoop es ks

/-- Embedding of agent_builder.`_normalize_raw_result`. -/
def _normalize_raw_result {R : Type} (obj : RawObj R) (key_candidates : List String) :
    List R :=
  match obj with
  | .rlist xs => dictsOf xs
  | .rdict es => normDictLoop es key_candidates
  | .rother => []

/-! ### Raw CSV rows and the raw search helpers -/

/-- A row of the raw communications CSV (post-`read_csv` records dict). -/
structure PiiRawRow where
  message_id : Cell := .cnan
  channel : Cell := .cnan
  text : Cell := .cnan
deriving DecidableEq, Repr

/-- A row of the raw transaction-narratives CSV. -/
structure AmlRawRow where
  transaction_id : Cell := .cnan
  amount_sgd : Cell := .cnan
  date : Cell := .cnan
  narrative : Cell := .cnan
deriving DecidableEq, Repr

/-- A row of the raw regulatory-paragraphs CSV. -/
structure RegRawRow where
  paragraph_id : Cell := .cnan
  source_document : Cell := .cnan
  regulation : Cell := .cnan
  article : Cell := .cnan
  paragraph_text : Cell := .cnan
deriving DecidableEq, Repr

/-- The response dict of a raw_search_* helper as a `RawObj`: the scalar
bookkeeping keys in insertion order, with the hit list stored under
`listKey` ("hits" for PII, "matches" for AML/REG). -/
def rawRespObj {R : Type} (listKey : String) (hits : List R) : RawObj R :=
  .rdict [("tool", .fother), ("query", .fother), ("approximate", .fother),
    (listKey, .flist (hits.map .recd)), ("count", .fother)]

/-- The case-insensitive substring filter
`col.astype(str).str.contains(query, case=False, na=False)` applied to a
cell (after `astype(str)` a NaN cell is the literal string "nan"; the demo
queries contain no regex metacharacters, so matching is literal). -/
def cellTextMatch (c : Cell) (query : String) : Bool :=
  strContains (pyLower (cellStr c)) (pyLower query)

/-- Embedding of raw_search_pii.`raw_search_pii` over the raw table (an
absent CSV file is the empty table, which returns the annotated empty
response).  The hit dicts reuse the row type: each hit carries exactly the
`message_id`, `channel` and `text` cells of its row. -/
def raw_search_pii (table : List PiiRawRow) (query : String) : RawObj PiiRawRow :=
  if table.isEmpty then rawRespObj "hits" []
  else rawRespObj "hits" ((table.filter fun r => cellTextMatch r.text query).take 20)

/-- Embedding of raw_search_aml.`raw_search_aml` (hits carry
`transaction_id`, `amount_sgd`, `date`, `narrative`). -/
def raw_search_aml (table : List AmlRawRow) (query : String) : RawObj AmlRawRow :=
  if table.isEmpty then rawRespObj "matches" []
  else rawRespObj "matches" ((table.filter fun r => cellTextMatch r.narrative query).take 20)

/-- Embedding of raw_search_reg.`raw_search_reg` (hits carry
`paragraph_id`, `source_document`, `regulation`, `article`,
`paragraph_text`). -/
def raw_search_reg (table : List RegRawRow) (query : String) : RawObj RegRawRow :=
  if table.isEmpty then rawRespObj "matches" []
  else rawRespObj "matches" ((table.filter fun r => cellTextMatch r.paragraph_text query).take 20)

/-! ### Record dicts reaching the answer writers -/

/-- A PII hit dict: every key the PII writer or the PII adapter reads;
`none` is an absent key. -/
structure PiiHit where
  message_id : Option PyVal := none
  id : Option PyVal := none
  risk_flag : Option PyVal := none
  risk_level : Option PyVal := none
  pii_entities : Option PyVal := none
  entities : Option PyVal := none
  masked_text : Option PyVal := none
  original_text : Option PyVal := none
  text : Option PyVal := none
  channel : Option PyVal := none
deriving Repr

/-- An AML match dict: every key the AML writer, the SAR builder or the AML
adapter reads. -/
structure AmlMatch where
  transaction_id : Option PyVal := none
  tx_id : Option PyVal := none
  amount_sgd : Option PyVal := none
  amount : Option PyVal := none
  amount_SGD : Option PyVal := none
  risk_score : Option PyVal := none
  risk : Option PyVal := none
  aml_tags : Option PyVal := none
  tags : Option PyVal := none
  typology : Option PyVal := none
  masked_narrative : Option PyVal := none
  original_narrative : Option PyVal := none
  narrative : Option PyVal := none
  date : Option PyVal := none
deriving Repr

/-- A regulatory match dict: every key the REG writer or adapter reads. -/
structure RegMatch where
  paragraph_id : Option PyVal := none
  source_document : Option PyVal := none
  regulation : Option PyVal := none
  paragraph_text : Option PyVal := none
  original_text : Option PyVal := none
  text : Option PyVal := none
  owner : Option PyVal := none
  business_unit : Option PyVal := none
  assigned_to : Option PyVal := none
  deadline : Option PyVal := none
  article : Option PyVal := none
deriving Repr

/-- The SAR dict built by `sar_draft_from_aml_tool` / the baseline branch. -/
structure SarResult where
  transaction_id : Option PyVal := none
  sar_draft : Option PyVal := none
deriving Repr

/-- The canonical PII envelope / writer input ({"hits": ..., "count": ...};
a `{}` payload default is the all-`none` record). -/
structure PiiToolResult where
  hits : Option (List PiiHit) := none
  results : Option (List PiiHit) := none
  count : Option Nat := none
deriving Repr

/-- The canonical AML envelope / writer input ({"matches": ..., "count": ...},
with the `matches` key spelled `matchList` because `matches` is reserved in
Lean). -/
structure AmlToolResult where
  matchList : Option (List AmlMatch) := none
  results : Option (List AmlMatch) := none
  count : Option Nat := none
deriving Repr

/-- The canonical REG envelope / writer input. -/
structure RegToolResult where
  matchList : Option (List RegMatch) := none
  results : Option (List RegMatch) := none
  count : Option Nat := none
deriving Repr

/-- `d.get(k1) or d.get(k2) or []` for two optional list fields (an empty
or absent list falls through, Python list truthiness). -/
def pyOrList {α : Type} (a b : Option (List α)) : List α :=
  match a with
  | some (x :: xs) => x :: xs
  | _ =>
    match b with
    | some (y :: ys) => y :: ys
    | _ => []

/-- The response of an external tagged search tool
(utils.tagging_wrappers, outside the analysed sources): a list, a dict
(whose primary list key is "hits" for PII and "matches" for AML/REG, with
"results" as the fallback key), a raised exception, or any other shape. -/
inductive ToolResp (R : Type) where
  | rlist (xs : List R)
  | rdict (primary : Option (List R)) (results : Option (List R))
  | rerror
  | rother

/-! ### Answer writers (agent_builder section 3) -/

/-- The empty-result sentence shared by all three search writers. -/
def noResultsSentence : String := "No results found for your query."

/-- `str(h.get("risk_flag") or h.get("risk_level") or "").title()`, the key
used for the PII summary risk distribution. -/
def piiRiskKey (h : PiiHit) : String :=
  pyTitle (pyStrV (pyOr (pyOr (pyGet h.risk_flag) (pyGet h.risk_level)) (.vstr "")))

/-- The four summary counters of the PII writer. -/
structure RiskCounts where
  critical : Nat := 0
  high : Nat := 0
  medium : Nat := 0
  low : Nat := 0
deriving DecidableEq, Repr

/-- The risk-distribution pass of `format_pii_results` (a title-cased value
outside the four buckets is not counted). -/
def piiRiskCounts (hits : List PiiHit) : RiskCounts :=
  hits.foldl
    (fun acc h =>
      let r := piiRiskKey h
      if r == "Critical" then { acc with critical := acc.critical + 1 }
      else if r == "High" then { acc with high := acc.high + 1 }
      else if r == "Medium" then { acc with medium := acc.medium + 1 }
      else if r == "Low" then { acc with low := acc.low + 1 }
      else acc)
    {}

/-- `h.get("message_id") or h.get("id") or "-"` rendered by the f-string. -/
def piiMsgId (h : PiiHit) : String :=
  pyStrV (pyOr (pyOr (pyGet h.message_id) (pyGet h.id)) (.vstr "-"))

/-- `h.get("risk_flag") or h.get("risk_level") or "(not provided)"`
rendered by the f-string. -/
def piiRiskShown (h : PiiHit) : String :=
  pyStrV (pyOr (pyOr (pyGet h.risk_flag) (pyGet h.risk_level)) (.vstr "(not provided)"))

/-- The comma-joined entity list, or "(not provided)" when empty. -/
def piiEntitiesStr (h : PiiHit) : String :=
  let l := toListOfLabels (pyOr (pyOr (pyGet h.pii_entities) (pyGet h.entities)) (.vlist []))
  if l.isEmpty then "(not provided)" else pyJoin ", " l

/-- The excerpt after source selection
(masked_text / original_text / text / ""), `str()`, newline replacement and
`strip()`, before the length check. -/
def piiProcessedExcerpt (h : PiiHit) : String :=
  pyStrip (pyReplaceChar '\n' ' '
    (pyStrV (pyOr (pyOr (pyOr (pyGet h.masked_text) (pyGet h.original_text)) (pyGet h.text))
      (.vstr ""))))

/-- The excerpt as displayed: over 140 characters it becomes
`excerpt[:137].rstrip() + "..."`. -/
def piiExcerptShown (h : PiiHit) : String :=
  let e := piiProcessedExcerpt h
  if 140 < e.data.length then pyRStrip (pyTake e 137) ++ "..." else e

/-- The block of lines one PII hit contributes (the excerpt line is emitted
only when the displayed excerpt is non-empty). -/
def piiHitLines (h : PiiHit) : List String :=
  let base := "\nâ€¢ ID: `" ++ piiMsgId h ++ "` | Risk: **" ++ piiRiskShown h ++
    "** | Entities: " ++ piiEntitiesStr h
  if piiExcerptShown h == "" then [base]
  else [base, "  _Excerpt (masked):_ " ++ piiExcerptShown h]

/-- Embedding of agent_builder.`format_pii_results` (every hit is rendered;
there is no 20-hit cap in the PII writer). -/
def format_pii_results (tool_result : PiiToolResult) : String :=
  let hits := pyOrList tool_result.hits tool_result.results
  if hits.isEmpty then noResultsSentence
  else
    let rc := piiRiskCounts hits
    pyJoin "\n"
      (["ðŸš¨ **PII Matches Found:**",
        "Total: " ++ toString hits.length ++ " hits (Critical: " ++ toString rc.critical ++
          ", High: " ++ toString rc.high ++ ", Medium: " ++ toString rc.medium ++
          ", Low: " ++ toString rc.low ++ ")"] ++ hits.flatMap piiHitLines)

/-- `m.get("transaction_id") or m.get("tx_id") or "(not provided)"`. -/
def amlTxId (m : AmlMatch) : String :=
  pyStrV (pyOr (pyOr (pyGet m.transaction_id) (pyGet m.tx_id)) (.vstr "(not provided)"))

/-- `m.get("amount_sgd") or m.get("amount") or m.get("amount_SGD")` — note
that a zero amount is falsy and falls through each `or`. -/
def amlAmountVal (m : AmlMatch) : PyVal :=
  pyOr (pyOr (pyGet m.amount_sgd) (pyGet m.amount)) (pyGet m.amount_SGD)

/-- `m.get("risk_score") or m.get("risk") or None` — a zero risk score is
falsy and the chain collapses to `None`. -/
def amlRiskVal (m : AmlMatch) : PyVal :=
  pyOr (pyOr (pyGet m.risk_score) (pyGet m.risk)) .vnone

/-- `f"{risk}/10" if risk is not None else "(not provided)"`. -/
def amlRiskStr (m : AmlMatch) : String :=
  match amlRiskVal m with
  | .vnone => "(not provided)"
  | v => pyStrV v ++ "/10"

/-- `f" | SGD {amount}" if amount is not None else ""`. -/
def amlAmountPart (m : AmlMatch) : String :=
  match amlAmountVal m with
  | .vnone => ""
  | v => " | SGD " ++ pyStrV v

/-- The comma-joined AML tag list, or "(not provided)". -/
def amlTagsStr (m : AmlMatch) : String :=
  let l := toListOfLabels
    (pyOr (pyOr (pyOr (pyGet m.aml_tags) (pyGet m.tags)) (pyGet m.typology)) (.vlist []))
  if l.isEmpty then "(not provided)" else pyJoin ", " l

/-- The narrative excerpt, truncated at 160 characters to
`narrative[:157].rstrip() + "..."`. -/
def amlNarrativeShown (m : AmlMatch) : String :=
  let n := pyStrip (pyReplaceChar '\n' ' '
    (pyStrV (pyOr (pyOr (pyOr (pyGet m.masked_narrative) (pyGet m.original_narrative))
      (pyGet m.narrative)) (.vstr ""))))
  if 160 < n.data.length then pyRStrip (pyTake n 157) ++ "..." else n

/-- The block of lines one AML match contributes. -/
def amlMatchLines (m : AmlMatch) : List String :=
  let base := "\nâ€¢ **" ++ amlTxId m ++ "**" ++ amlAmountPart m ++ " | Risk: **" ++
    amlRiskStr m ++ "**\n  Tags: " ++ amlTagsStr m
  if amlNarrativeShown m == "" then [base]
  else [base, "  _Narrative:_ " ++ amlNarrativeShown m]

/-- Embedding of agent_builder.`format_aml_results` (at most the first 20
matches are rendered, in the order received). -/
def format_aml_results (tool_result : AmlToolResult) : String :=
  let ms := pyOrList tool_result.matchList tool_result.results
  if ms.isEmpty then noResultsSentence
  else
    pyJoin "\n"
      (["**High-Risk Transactions:**",
        "Total: " ++ toString ms.length ++ " transactions (showing up to first " ++
          toString (min ms.length 20) ++ ")."] ++ (ms.take 20).flatMap amlMatchLines)

/-- `str(m.get("regulation") or m.get("source_document") or "").strip()`. -/
def regRegulationStr (m : RegMatch) : String :=
  pyStrip (pyStrV (pyOr (pyOr (pyGet m.regulation) (pyGet m.source_document)) (.vstr "")))

/-- The regulatory text excerpt, truncated at 200 characters to
`text[:197].rstrip() + "..."`. -/
def regTextShown (m : RegMatch) : String :=
  let t := pyStrip (pyReplaceChar '\n' ' '
    (pyStrV (pyOr (pyOr (pyOr (pyGet m.paragraph_text) (pyGet m.original_text))
      (pyGet m.text)) (.vstr "(not provided)"))))
  if 200 < t.data.length then pyRStrip (pyTake t 197) ++ "..." else t

/-- `m.get("owner") or m.get("business_unit") or m.get("assigned_to") or
"(not provided)"`. -/
def regOwnerShown (m : RegMatch) : String :=
  pyStrV (pyOr (pyOr (pyOr (pyGet m.owner) (pyGet m.business_unit)) (pyGet m.assigned_to))
    (.vstr "(not provided)"))

/-- The block of lines one regulatory match contributes. -/
def regMatchLines (m : RegMatch) : List String :=
  let p := regRegulationStr m
  ["\nâ€¢ " ++ (if p == "" then "" else "[" ++ p ++ "] ") ++ regTextShown m,
   "  Owner: **" ++ regOwnerShown m ++ "**"]

/-- Embedding of agent_builder.`format_reg_results`. -/
def format_reg_results (tool_result : RegToolResult) : String :=
  let ms := pyOrList tool_result.matchList tool_result.results
  if ms.isEmpty then noResultsSentence
  else
    pyJoin "\n"
      (["**Regulatory Obligations:**",
        "Total: " ++ toString ms.length ++ " obligations (showing up to first " ++
          toString (min ms.length 20) ++ ")."] ++ (ms.take 20).flatMap regMatchLines)

/-- Embedding of agent_builder.`format_sar_result`. -/
def format_sar_result (sar : SarResult) : String :=
  "**SAR Drafted for " ++ pyStrV (pyOr (pyGet sar.transaction_id) (.vstr "(not provided)")) ++
    "**\n" ++
    pyStrV (pyOr (pyGet sar.sar_draft)
      (.vstr "No SAR draft available for the requested transaction."))

/-! ### Mode-specific adapters and the SAR builder -/

/-- The environment of a query: the raw CSV tables, the tagged regulatory
table, and the three external tagged search tools. -/
structure Env where
  pii_table : List PiiRawRow := []
  aml_table : List AmlRawRow := []
  reg_table : List RegRawRow := []
  reg_tagged_table : List RegRow := []
  search_pii_tool : String → ToolResp PiiHit := fun _ => .rlist []
  search_aml_tool : String → ToolResp AmlMatch := fun _ => .rlist []
  search_reg_tool : String → ToolResp RegMatch := fun _ => .rlist []

/-- Python `.lower()` on a dict value: raises on a non-string (a NaN text
cell reaching `(h.get("text") or ...).lower()` is an uncaught
AttributeError). -/
def pyLowerVal (v : PyVal) : Except Unit String :=
  match v with
  | .vstr s => .ok (pyLower s)
  | _ => .error ()

/-- The `keyword_to_entity` dict of the raw PII adapter, in insertion
order. -/
def keyword_to_entity : List (String × String) :=
  [("nric", "NRIC"), ("passport", "Passport"), ("phone", "Phone"),
   ("phone number", "Phone Number"), ("account", "Account"),
   ("account number", "Account Number"), ("salary", "Salary")]

/-- The raw-mode PII conversion loop body: heuristic entities and risk from
the hit text, as in `_pii_results_for_mode` (`query` is the original query,
`ql` the lower-cased one). -/
def convertPiiHit (query ql : String) (h : PiiRawRow) : Except Unit PiiHit :=
  match pyLowerVal (pyOr (pyOr (cellPy h.text) .vnone) (.vstr "")) with
  | .error e => .error e
  | .ok text =>
    let entities0 := (keyword_to_entity.filter fun kw => strContains text kw.1).map (·.2)
    let entities := if entities0.isEmpty && !(ql == "") then [query] else entities0
    let risk :=
      if strContains text "nric" || strContains text "passport" ||
          strContains text "account" then "High"
      else if strContains text "salary" then "Medium"
      else "Low"
    .ok { message_id := some (cellPy h.message_id),
          pii_entities := some (.vlist (entities.map .vstr)),
          risk_flag := some (.vstr risk),
          original_text := some (pyOr (cellPy h.text) .vnone) }

/-- Embedding of agent_builder.`_pii_results_for_mode`. -/
def _pii_results_for_mode (env : Env) (query mode : String) : Except Unit PiiToolResult :=
  if mode == "no_layer" then
    let raw := raw_search_pii env.pii_table query
    let hits_raw := _normalize_raw_result raw ["hits", "results", "matches", "rows"]
    let ql := pyLower query
    match mapMExcept (convertPiiHit query ql) hits_raw with
    | .error e => .error e
    | .ok converted =>
      .ok { hits := some converted, results := none, count := some converted.length }
  else
    match env.search_pii_tool query with
    | .rlist xs => .ok { hits := some xs, count := some xs.length }
    | .rdict primary results =>
      let hs := pyOrList primary results
      .ok { hits := some hs, count := some hs.length }
    | .rerror => .error ()
    | .rother => .ok { hits := some [], count := some 0 }

/-- The raw-mode AML conversion loop body (`risk_score` is deliberately set
to `None` in the baseline). -/
def convertAmlHit (query ql : String) (m : AmlRawRow) : Except Unit AmlMatch :=
  match pyLowerVal (pyOr (cellPy m.narrative) (.vstr "")) with
  | .error e => .error e
  | .ok narrative =>
    let tags0 :=
      (if strContains ql "crypto" || strContains narrative "crypto" then ["Crypto"] else []) ++
      (if strContains ql "structuring" || strContains ql "structured" ||
          strContains narrative "structuring" then ["Structuring"] else [])
    let tags := if tags0.isEmpty && !(ql == "") then [query] else tags0
    .ok { transaction_id := some (cellPy m.transaction_id),
          amount_sgd := some (pyOr (cellPy m.amount_sgd) .vnone),
          aml_tags := some (.vlist (tags.map .vstr)),
          risk_score := some .vnone,
          narrative := some (cellPy m.narrative) }

/-- Embedding of agent_builder.`_aml_results_for_mode`. -/
def _aml_results_for_mode (env : Env) (query mode : String) : Except Unit AmlToolResult :=
  if mode == "no_layer" then
    let raw := raw_search_aml env.aml_table query
    let matches_raw := _normalize_raw_result raw ["matches", "results", "rows"]
    let ql := pyLower query
    match mapMExcept (convertAmlHit query ql) matches_raw with
    | .error e => .error e
    | .ok converted =>
      .ok { matchList := some converted, results := none, count := some converted.length }
  else
    match env.search_aml_tool query with
    | .rlist xs => .ok { matchList := some xs, count := some xs.length }
    | .rdict primary results =>
      let ms := pyOrList primary results
      .ok { matchList := some ms, count := some ms.length }
    | .rerror => .error ()
    | .rother => .ok { matchList := some [], count := some 0 }

/-- The raw-mode REG conversion loop body (owner is always "(not tagged)",
business unit and deadline are `None`). -/
def convertRegHit (m : RegRawRow) : RegMatch :=
  { paragraph_id := some (cellPy m.paragraph_id),
    source_document := some (cellPy m.source_document),
    regulation := some (pyOr (cellPy m.regulation) (cellPy m.paragraph_text)),
    paragraph_text := some (cellPy m.paragraph_text),
    owner := some (.vstr "(not tagged)"),
    business_unit := some .vnone,
    deadline := some .vnone,
    original_text := some (cellPy m.paragraph_text) }

/-- Embedding of agent_builder.`_reg_results_for_mode` (the raw conversion
raises nothing; the tagged tool may). -/
def _reg_results_for_mode (env : Env) (query mode : String) : Except Unit RegToolResult :=
  if mode == "no_layer" then
    let raw := raw_search_reg env.reg_table query
    let matches_raw := _normalize_raw_result raw ["matches", "results", "rows"]
    let converted := matches_raw.map convertRegHit
    .ok { matchList := some converted, results := none, count := some converted.length }
  else
    match env.search_reg_tool query with
    | .rlist xs => .ok { matchList := some xs, count := some xs.length }
    | .rdict primary results =>
      let ms := pyOrList primary results
      .ok { matchList := some ms, count := some ms.length }
    | .rerror => .error ()
    | .rother => .ok { matchList := some [], count := some 0 }

/-- Embedding of agent_builder.`sar_draft_from_aml_tool` (the tool call is
wrapped in try/except, so a raising tool degrades to the empty list; the
rest of the construction cannot raise). -/
def sar_draft_from_aml_tool (env : Env) (tx_id0 : String) : SarResult :=
  let tx_id := if tx_id0 == "" then "T028" else tx_id0
  let matchesFound : List AmlMatch :=
    match env.search_aml_tool tx_id with
    | .rlist xs => xs
    | .rdict primary results => pyOrList primary results
    | .rerror => []
    | .rother => []
  let row : Option AmlMatch :=
    if matchesFound.isEmpty then none
    else
      match matchesFound.find? fun m =>
          pyUpper (pyStrV (pyGetD m.transaction_id (.vstr ""))) == pyUpper tx_id with
      | some m => some m
      | none => matchesFound.head?
  match row with
  | none =>
    { transaction_id := some (.vstr tx_id),
      sar_draft := some (.vstr "No SAR draft available for the requested transaction.") }
  | some r =>
    let amount := pyOr (pyOr (pyGet r.amount_sgd) (pyGet r.amount)) (.vstr "(not provided)")
    let risk := pyOr (pyOr (pyGet r.risk_score) (pyGet r.risk)) (.vstr "(not provided)")
    let tagsList := toListOfLabels
      (pyOr (pyOr (pyOr (pyGet r.aml_tags) (pyGet r.tags)) (pyGet r.typology)) (.vlist []))
    let tags_str := if tagsList.isEmpty then "(not provided)" else pyJoin ", " tagsList
    let narrative := pyOr (pyOr (pyOr (pyGet r.masked_narrative) (pyGet r.original_narrative))
      (pyGet r.narrative)) (.vstr "")
    let riskLine :=
      match risk with
      | .vstr s =>
        if s == "(not provided)" then "Risk: (not provided)" else "Risk: " ++ s ++ "/10"
      | v => "Risk: " ++ pyStrV v ++ "/10"
    let body := ["Amount: SGD " ++ pyStrV amount, "Typology: " ++ tags_str, riskLine] ++
      (if pyTruthy narrative then ["Narrative: " ++ pyStrV narrative] else [])
    { transaction_id := some (.vstr tx_id), sar_draft := some (.vstr (pyJoin "\n" body)) }

/-! ### Writer node and the two orchestrators -/

/-- The payload dict passed from `core_answer` to the writer node. -/
structure Payload where
  pii : Option PiiToolResult := none
  aml : Option AmlToolResult := none
  reg : Option RegToolResult := none
  sar : Option SarResult := none

/-- Embedding of agent_builder.`writer_node` (the `payload.get(key, {})`
default is the all-absent record). -/
def writer_node (intent : Intent) (payload : Payload) : String :=
  match intent with
  | .PII_SEARCH => format_pii_results (payload.pii.getD {})
  | .AML_SEARCH => format_aml_results (payload.aml.getD {})
  | .REG_SEARCH => format_reg_results (payload.reg.getD {})
  | .SAR_DRAFT => format_sar_result (payload.sar.getD {})
  | .OUT_OF_SCOPE => noResultsSentence

/-- The out-of-scope guidance sentence of `core_answer`. -/
def outOfScopeAnswer : String :=
  "Query out of scope for this demo â€” please ask about PII, AML high-risk transactions, MAS 610 regulations, or SAR drafting in our synthetic dataset."

/-- The out-of-scope guidance sentence of `core_answer_with_trace` (note:
differently worded than the one in `core_answer`). -/
def outOfScopeAnswerTrace : String :=
  "Query out of scope for this demo â€” please ask about PII, AML, MAS 610 regulations, or SAR drafting."

/-- The fixed baseline-mode SAR limitation text. -/
def baselineSarDraft : String :=
  "No SAR draft available for the requested transaction in this baseline mode (no tagged AML semantic layer)."

/-- The SAR dict built by `core_answer` in baseline ("no_layer") mode. -/
def baselineSar (tx_id : String) : SarResult :=
  { transaction_id := some (.vstr tx_id), sar_draft := some (.vstr baselineSarDraft) }

/-- Embedding of agent_builder.`core_answer`:
router, then the adapter selected by intent and mode, then the writer, with
the regulatory metric handler tried first for REG_SEARCH. -/
def core_answer (env : Env) (query mode : String) : Except Unit String :=
  match simple_intent_router query with
  | .OUT_OF_SCOPE => .ok outOfScopeAnswer
  | .PII_SEARCH =>
    match _pii_results_for_mode env query mode with
    | .error e => .error e
    | .ok res => .ok (writer_node .PII_SEARCH { pii := some res })
  | .AML_SEARCH =>
    match _aml_results_for_mode env query mode with
    | .error e => .error e
    | .ok res => .ok (writer_node .AML_SEARCH { aml := some res })
  | .REG_SEARCH =>
    match _reg_metric_answer env.reg_tagged_table query mode with
    | .error e => .error e
    | .ok (some m) => .ok m.answer
    | .ok none =>
      match _reg_results_for_mode env query mode with
      | .error e => .error e
      | .ok res => .ok (writer_node .REG_SEARCH { reg := some res })
  | .SAR_DRAFT =>
    let tx0 := extract_tx_id query
    let tx_id := if tx0 == "" then "T028" else tx0
    if mode == "no_layer" then
      .ok (writer_node .SAR_DRAFT { sar := some (baselineSar tx_id) })
    else
      .ok (writer_node .SAR_DRAFT { sar := some (sar_draft_from_aml_tool env tx_id) })

/-- The preview stored in a trace (typed per branch; the trace payload is
diagnostic only and no claim inspects its contents). -/
inductive Preview where
  | piiP (xs : List PiiHit)
  | amlP (xs : List AmlMatch)
  | regP (xs : List RegMatch)
  | regRows (xs : List RegRow)
  | sarP (s : SarResult)
  | emptyP

/-- The trace dict of `core_answer_with_trace`. -/
structure Trace where
  intent : Intent
  mode : String
  tool_name : Option String
  hit_count : Nat
  preview : Preview

/-- The dict returned by `core_answer_with_trace`. -/
structure TraceResult where
  answer : String
  trace : Trace

/-- Embedding of agent_builder.`core_answer_with_trace`. -/
def core_answer_with_trace (env : Env) (query mode : String) :
    Except Unit TraceResult :=
  match simple_intent_router query with
  | .OUT_OF_SCOPE =>
    .ok { answer := outOfScopeAnswerTrace,
          trace := { intent := .OUT_OF_SCOPE, mode := mode, tool_name := none,
                     hit_count := 0, preview := .emptyP } }
  | .PII_SEARCH =>
    match _pii_results_for_mode env query mode with
    | .error e => .error e
    | .ok res =>
      .ok { answer := writer_node .PII_SEARCH { pii := some res },
            trace := { intent := .PII_SEARCH, mode := mode,
                       tool_name := some (if mode == "no_layer" then "raw_search_pii"
                         else "search_pii_tool"),
                       hit_count := res.count.getD 0,
                       preview := .piiP ((res.hits.getD []).take 3) } }
  | .AML_SEARCH =>
    match _aml_results_for_mode env query mode with
    | .error e => .error e
    | .ok res =>
      .ok { answer := writer_node .AML_SEARCH { aml := some res },
            trace := { intent := .AML_SEARCH, mode := mode,
                       tool_name := some (if mode == "no_layer" then "raw_search_aml"
                         else "search_aml_tool"),
                       hit_count := res.count.getD 0,
                       preview := .amlP ((res.matchList.getD []).take 3) } }
  | .REG_SEARCH =>
    match _reg_metric_answer env.reg_tagged_table query mode with
    | .error e => .error e
    | .ok (some m) =>
      .ok { answer := m.answer,
            trace := { intent := .REG_SEARCH, mode := mode,
                       tool_name := some m.tool_name, hit_count := m.count,
                       preview := .regRows (m.matchList.take 3) } }
    | .ok none =>
      match _reg_results_for_mode env query mode with
      | .error e => .error e
      | .ok res =>
        .ok { answer := writer_node .REG_SEARCH { reg := some res },
              trace := { intent := .REG_SEARCH, mode := mode,
                         tool_name := some (if mode == "no_layer" then "raw_search_reg"
                           else "search_regulations_tool"),
                         hit_count := res.count.getD 0,
                         preview := .regP ((res.matchList.getD []).take 3) } }
  | .SAR_DRAFT =>
    let tx0 := extract_tx_id query
    let tx_id := if tx0 == "" then "T028" else tx0
    let sar := if mode == "no_layer" then baselineSar tx_id
      else sar_draft_from_aml_tool env tx_id
    .ok { answer := writer_node .SAR_DRAFT { sar := some sar },
          trace := { intent := .SAR_DRAFT, mode := mode,
                     tool_name := some (if mode == "no_layer" then "none"
                       else "draft_sar_tool"),
                     hit_count := 1, preview := .sarP sar } }

/-- The answer component of a (possibly raised) trace result, for stating
agreement with `core_answer`. -/
def traceAnswerOf : Except Unit TraceResult → Option String
  | .ok r => some r.answer
  | .error _ => none

/-- The answer component of a (possibly raised) plain result. -/
def plainAnswerOf : Except Unit String → Option String
  | .ok s => some s
  | .error _ => none

/-! ### Concrete fixtures for witnesses and counterexamples -/

/-- An environment with empty tables and list-returning tools. -/
def envA : Env := {}

/-- A second environment whose AML table and tagged AML tool differ from
`envA`, for mode-independence statements. -/
def envB : Env :=
  { aml_table := [{ transaction_id := .cstr "T028", amount_sgd := .cint 60000,
                    date := .cstr "2024-01-01", narrative := .cstr "crypto transfer" }],
    search_aml_tool := fun _ =>
      .rlist [{ transaction_id := some (.vstr "T028"), amount_sgd := some (.vint 60000),
                risk_score := some (.vint 9) }] }

/-- The deadline-coverage question of the spec scenario. -/
def c2Query : String :=
  "How many suspicious transaction obligations under MAS 610 have deadlines captured?"

/-- One tagged regulatory row of the C2 fixture. -/
def c2Row (pid : String) (dl : Cell) : RegRow :=
  { paragraph_id := .cstr pid,
    source_document := .cstr "MAS Notice 610",
    regulation := .cstr "Banks shall monitor suspicious transactions.",
    risk_type := .cstr "Suspicious Transaction",
    owner := .cstr "Compliance",
    deadline := dl,
    paragraph_text := .cstr "Banks shall monitor suspicious transactions." }

/-- The spec scenario's fixture: five matching rows, three with a non-blank
string deadline and two with a blank/absent (NaN) deadline cell. -/
def c2Table : List RegRow :=
  [c2Row "R1" (.cstr "Ongoing"), c2Row "R2" (.cstr "2026-12-31"),
   c2Row "R3" (.cstr "Annual"), c2Row "R4" .cnan, c2Row "R5" .cnan]

/-- The claim's reading of "deadline captured": the deadline cell holds a
string that is non-empty after trimming (null/blank/absent cells are
unspecified and not captured).  Written from the spec's words, for
comparison with the code's `deadlineCounted`. -/
def deadlineSpecCaptured (r : RegRow) : Bool :=
  match r.deadline with
  | .cstr s => !(pyStrip s == "")
  | _ => false

/-- The filters `_reg_metric_answer` passes to `query_regulations`. -/
def c2Filters : RegFilters :=
  { source_document := some "MAS Notice 610", risk_type := some "suspicious" }

/-- The answer string of a metric result, or "" if no pattern fired or the
computation raised. -/
def metricAnswerOf : Except Unit (Option MetricResult) → String
  | .ok (some m) => m.answer
  | _ => ""

/-- The transaction id `core_answer` uses for a SAR draft: the extraction
result, defaulting to "T028" when it is empty. -/
def sarTxOf (query : String) : String :=
  if extract_tx_id query == "" then "T028" else extract_tx_id query

/-- A 141-character excerpt whose 137th character is a space: 136 letters
`a`, one space, four letters `b`. -/
def c6Excerpt : String :=
  strOf (List.replicate 136 'a' ++ [' '] ++ List.replicate 4 'b')

/-- A PII hit whose masked text is `c6Excerpt`. -/
def c6Hit : PiiHit := { masked_text := some (.vstr c6Excerpt) }

/-- A PII hit with a 140-character excerpt (shown unmodified). -/
def c6Hit140 : PiiHit := { masked_text := some (.vstr (strOf (List.replicate 140 'a'))) }

/-- A PII hit with a 141-character excerpt with no whitespace at the cut. -/
def c6Hit141 : PiiHit := { masked_text := some (.vstr (strOf (List.replicate 141 'a'))) }

/-- An AML match with a present zero risk score and a present zero amount
(and no alias keys). -/
def c7Match : AmlMatch :=
  { transaction_id := some (.vstr "T001"),
    risk_score := some (.vint 0),
    amount_sgd := some (.vint 0) }

/-- The empty canonical PII envelope (raw mode over an empty table). -/
def emptyPiiEnvelope : PiiToolResult := { hits := some [], results := none, count := some 0 }

/-- The empty canonical AML envelope. -/
def emptyAmlEnvelope : AmlToolResult := { matchList := some [], results := none, count := some 0 }

/-- The empty canonical REG envelope. -/
def emptyRegEnvelope : RegToolResult := { matchList := some [], results := none, count := some 0 }

/-! ### Shared lemmas -/

/-- Filtering the dicts out of a list of wrapped dicts returns the list. -/
theorem dictsOf_map_recd {R : Type} (l : List R) : dictsOf (l.map .recd) = l := by
  induction l with
  | nil => rfl
  | cons x xs ih => simpa [dictsOf] using ih

/-- Dropping a while-prefix never lengthens a list. -/
theorem length_dropWhile_le_len {α : Type} (p : α → Bool) (l : List α) :
    (l.dropWhile p).length ≤ l.length := by
  induction l with
  | nil => simp
  | cons x xs ih =>
    by_cases h : p x = true
    · simp only [List.dropWhile_cons, h, if_true]
      exact le_trans ih (Nat.le_succ _)
    · simp [List.dropWhile_cons, h]

/-- Right-stripping never lengthens a character list. -/
theorem pyRStripL_length_le (l : List Char) : (pyRStripL l).length ≤ l.length := by
  have h := length_dropWhile_le_len pyIsSpace l.reverse
  simp only [pyRStripL, List.length_reverse]
  simp only [List.length_reverse] at h
  omega

/-- Every element of a `takeWhile` prefix satisfies the predicate. -/
theorem all_takeWhile {α : Type} (p : α → Bool) (l : List α) :
    (l.takeWhile p).all p = true := by
  induction l with
  | nil => rfl
  | cons x xs ih =>
    by_cases h : p x = true
    · simp [List.takeWhile_cons, h, ih]
    · simp [List.takeWhile_cons, h]

/-- Any successful `findTxL` result is a letter T followed by a non-empty
run of digits. -/
theorem findTxL_shape (l : List Char) :
    ∀ (acc : Bool) (r : List Char), findTxL acc l = some r →
      ∃ ds : List Char, ds ≠ [] ∧ r = 'T' :: ds ∧ ds.all Char.isDigit = true := by
  induction l with
  | nil => intro acc r h; simp [findTxL] at h
  | cons c rest ih =>
    intro acc r h
    unfold findTxL at h
    by_cases h1 : (!acc && c = 'T') = true
    · rw [if_pos h1] at h
      by_cases h2 : (!(rest.takeWhile Char.isDigit).isEmpty &&
          (match rest.drop (rest.takeWhile Char.isDigit).length with
           | [] => true
           | d :: _ => !isWordChar d)) = true
      · rw [if_pos h2] at h
        refine ⟨rest.takeWhile Char.isDigit, ?_, by exact (Option.some.inj h).symm, all_takeWhile _ _⟩
        rw [Bool.and_eq_true] at h2
        have hne := h2.1
        intro hemp
        rw [hemp] at hne
        simp at hne
      · rw [if_neg h2] at h
        exact ih _ _ h
    · rw [if_neg h1] at h
      exact ih _ _ h

/-! ### C1: the router implements the spec's five rules -/

/-- C1.  `simple_intent_router` returns, for every query, exactly the intent
of the spec's five rules applied to the lower-cased query in first-match
order (`classify_spec`); in particular any query containing one of the five
PII keywords is classified PII_SEARCH (rule 1 has no earlier rule).  The
router is a pure function of the query alone — no mode argument exists — so
the result is deterministic and mode-independent by construction. -/
theorem c1_router_follows_spec_rules :
    (∀ q : String, simple_intent_router q = classify_spec q) ∧
    (∀ q : String, piiTrigger (pyLower q) = true →
      simple_intent_router q = .PII_SEARCH) := by
  constructor
  · intro q
    unfold simple_intent_router classify_spec routerOn specRulesOn
    cases h1 : strContains (pyLower q) "structuring" <;>
      cases h2 : strContains (pyLower q) "crypto" <;>
        cases h3 : strContains (pyLower q) "high-risk" <;>
          cases h4 : strContains (pyLower q) "high risk" <;>
            cases h5 : strContains (pyLower q) "transactions" <;>
              cases h6 : strContains (pyLower q) "risk" <;>
                simp [h1, h2, h3, h4, h5, h6]
  · intro q h
    unfold piiTrigger at h
    unfold simple_intent_router routerOn
    simp only [h]
    simp

/-- Witness for C1 at the golden PII query. -/
theorem c1_witness :
    piiTrigger (pyLower "Show me any messages with NRIC leaks.") = true ∧
    simple_intent_router "Show me any messages with NRIC leaks." = .PII_SEARCH :=
  ⟨by decide,
   c1_router_follows_spec_rules.2 "Show me any messages with NRIC leaks." (by decide)⟩

/-! ### C5: transaction-id extraction is word-boundary anchored -/

/-- C5 counterexample.  The claim says extraction returns the first
substring matching "T followed by digits" (case-insensitive on the letter).
On "cat5" that first substring is "T5", but `extract_tx_id` returns "": the
code's regex `\bT\d+\b` requires word boundaries, which "a" before "T"
violates. -/
theorem c5_counterexample :
    extract_tx_id "cat5" = "" ∧ spec_extract_tx_id "cat5" = "T5" ∧
    extract_tx_id "cat5" ≠ spec_extract_tx_id "cat5" := by decide

/-- C5 as amended.  Extraction returns the first *word-bounded* substring of
the upper-cased query of the shape letter T followed by one or more digits
(so any non-empty result starts with T and continues with digits), it
returns "" when no such bounded substring exists, and on an empty extraction
the SAR caller defaults the transaction id to "T028"; the quoted round-trip
examples hold. -/
theorem c5_word_bounded_extraction :
    extract_tx_id "Draft a SAR for T028" = "T028" ∧
    extract_tx_id "no id here" = "" ∧
    (∀ (env : Env) (q : String), simple_intent_router q = .SAR_DRAFT →
      extract_tx_id q = "" →
      core_answer env q "no_layer" =
        .ok ("**SAR Drafted for T028**\n" ++ baselineSarDraft)) ∧
    (∀ q : String, extract_tx_id q ≠ "" →
      ∃ ds : List Char, ds ≠ [] ∧ (extract_tx_id q).data = 'T' :: ds ∧
        ds.all Char.isDigit = true) := by
  refine ⟨by decide, by decide, ?_, ?_⟩
  · intro env q hint hex
    unfold core_answer
    rw [hint]
    simp only [hex]
    rfl
  · intro q hne
    unfold extract_tx_id at hne ⊢
    rcases hfind : findTxL false (pyUpper q).data with _ | l
    · rw [hfind] at hne
      simp at hne
    · obtain ⟨ds, hds, hl, hdig⟩ := findTxL_shape _ _ _ hfind
      exact ⟨ds, hds, by simp [hl, strOf], hdig⟩

/-- Witness for C5 at a query that is SAR-classified yet has no
word-bounded transaction id, exercising the "T028" default. -/
theorem c5_witness :
    simple_intent_router "sar xt028x" = .SAR_DRAFT ∧
    extract_tx_id "sar xt028x" = "" ∧
    core_answer envA "sar xt028x" "no_layer" =
      .ok ("**SAR Drafted for T028**\n" ++ baselineSarDraft) :=
  ⟨by decide, by decide,
   c5_word_bounded_extraction.2.2.1 envA "sar xt028x" (by decide) (by decide)⟩

/-! ### C9: the result-shape normalizer is idempotent -/

/-- C9.  Re-normalizing an output of `_normalize_raw_result` (a clean list
of record dicts, fed back as a list-shaped raw object) returns it
unchanged; in particular any canonical list of record dicts normalizes to
itself. -/
theorem c9_normalize_idempotent :
    ∀ (R : Type) (keys : List String) (obj : RawObj R) (xs : List R),
      _normalize_raw_result
          (RawObj.rlist ((_normalize_raw_result obj keys).map RawElem.recd)) keys =
        _normalize_raw_result obj keys ∧
      _normalize_raw_result (RawObj.rlist (xs.map RawElem.recd)) keys = xs := by
  intro R keys obj xs
  constructor
  · show dictsOf ((_normalize_raw_result obj keys).map RawElem.recd) = _
    exact dictsOf_map_recd _
  · show dictsOf (xs.map RawElem.recd) = xs
    exact dictsOf_map_recd _

/-! ### C6: PII excerpt truncation -/

set_option maxRecDepth 4000 in
/-- C6 counterexample.  The claim says an excerpt longer than 140
characters is truncated to exactly its first 137 characters plus "..."
(140 displayed characters).  For the 141-character excerpt whose 137th
character is a space, the code's `excerpt[:137].rstrip() + "..."` removes
the trailing space first and displays 139 characters, not the claimed
first-137-plus-ellipsis form. -/
theorem c6_counterexample :
    (piiProcessedExcerpt c6Hit).data.length = 141 ∧
    piiExcerptShown c6Hit ≠ pyTake (piiProcessedExcerpt c6Hit) 137 ++ "..." ∧
    (piiExcerptShown c6Hit).data.length ≠ 140 := by decide

/-- C6 as amended.  An excerpt of at most 140 characters is shown
unmodified; a longer one is truncated to its first 137 characters *with
trailing whitespace removed*, followed by the 3-character ellipsis marker,
so at most (not always exactly) 140 characters are displayed. -/
theorem c6_truncation_amended :
    ∀ h : PiiHit,
      ((piiProcessedExcerpt h).data.length ≤ 140 →
        piiExcerptShown h = piiProcessedExcerpt h) ∧
      (140 < (piiProcessedExcerpt h).data.length →
        piiExcerptShown h = pyRStrip (pyTake (piiProcessedExcerpt h) 137) ++ "..." ∧
        (piiExcerptShown h).data.length ≤ 140) := by
  intro h
  constructor
  · intro hle
    unfold piiExcerptShown
    rw [if_neg (by omega)]
  · intro hgt
    constructor
    · unfold piiExcerptShown
      rw [if_pos hgt]
    · unfold piiExcerptShown
      rw [if_pos hgt]
      have h1 : (pyRStrip (pyTake (piiProcessedExcerpt h) 137)).data.length ≤ 137 := by
        have h2 := pyRStripL_length_le (pyTake (piiProcessedExcerpt h) 137).data
        have h3 : (pyTake (piiProcessedExcerpt h) 137).data.length ≤ 137 := by
          simp [pyTake, strOf]
        calc (pyRStrip (pyTake (piiProcessedExcerpt h) 137)).data.length
            ≤ (pyTake (piiProcessedExcerpt h) 137).data.length := h2
          _ ≤ 137 := h3
      have happ : (pyRStrip (pyTake (piiProcessedExcerpt h) 137) ++ "...").data =
          (pyRStrip (pyTake (piiProcessedExcerpt h) 137)).data ++ "...".data := rfl
      rw [happ, List.length_append]
      simp only [String.data, List.length_cons, List.length_nil]
      omega

set_option maxRecDepth 4000 in
/-- Witness for C6: a 140-character excerpt is shown unmodified; a
141-character excerpt without whitespace at the cut is shown as its first
137 characters plus "...". -/
theorem c6_witness :
    piiExcerptShown c6Hit140 = piiProcessedExcerpt c6Hit140 ∧
    piiExcerptShown c6Hit141 =
      pyRStrip (pyTake (piiProcessedExcerpt c6Hit141) 137) ++ "..." :=
  ⟨(c6_truncation_amended c6Hit140).1 (by decide),
   ((c6_truncation_amended c6Hit141).2 (by decide)).1⟩

/-! ### C7: the AML writer and zero risk scores / amounts -/

/-- C7 counterexample.  The claim says a present risk score in [0,10],
including 0, is shown as "score/10", and an amount is omitted only when
absent.  `c7Match` has risk_score 0 and amount 0 present, yet the writer
shows "(not provided)" and omits the amount entirely: Python's `or` chains
treat 0 as falsy. -/
theorem c7_counterexample :
    amlRiskStr c7Match = "(not provided)" ∧ amlRiskStr c7Match ≠ "0/10" ∧
    amlAmountPart c7Match = "" ∧
    strContains (format_aml_results { matchList := some [c7Match] }) "0/10" = false ∧
    strContains (format_aml_results { matchList := some [c7Match] }) "SGD" = false := by
  decide

/-- C7 as amended.  For every non-empty match list the writer emits the
fixed header, the summary line with total and min(total, 20), and the first
at most 20 matches in order; a *non-zero* risk score is shown as
"score/10" while a zero or absent risk (with no truthy alias) renders
"(not provided)"; a *non-zero* amount is rendered " | SGD amount" while an
absent amount — or a zero one whose alias keys are absent — is omitted. -/
theorem c7_aml_writer_amended :
    (∀ ms : List AmlMatch, ms ≠ [] →
      format_aml_results { matchList := some ms } =
        pyJoin "\n" (["**High-Risk Transactions:**",
          "Total: " ++ toString ms.length ++ " transactions (showing up to first " ++
            toString (min ms.length 20) ++ ")."] ++ (ms.take 20).flatMap amlMatchLines)) ∧
    (∀ (m : AmlMatch) (n : Int), m.risk_score = some (.vint n) → n ≠ 0 →
      amlRiskStr m = toString n ++ "/10") ∧
    (∀ m : AmlMatch, m.risk_score = some (.vint 0) → m.risk = none →
      amlRiskStr m = "(not provided)") ∧
    (∀ m : AmlMatch, m.risk_score = none → m.risk = none →
      amlRiskStr m = "(not provided)") ∧
    (∀ (m : AmlMatch) (n : Int), m.amount_sgd = some (.vint n) → n ≠ 0 →
      amlAmountPart m = " | SGD " ++ toString n) ∧
    (∀ m : AmlMatch, m.amount_sgd = some (.vint 0) → m.amount = none →
      m.amount_SGD = none → amlAmountPart m = "") ∧
    (∀ m : AmlMatch, m.amount_sgd = none → m.amount = none → m.amount_SGD = none →
      amlAmountPart m = "") := by
  refine ⟨?_, ?_, ?_, ?_, ?_, ?_, ?_⟩
  · intro ms hne
    cases ms with
    | nil => exact absurd rfl hne
    | cons x xs =>
      unfold format_aml_results
      simp [pyOrList]
  · intro m n h hn
    unfold amlRiskStr amlRiskVal
    rw [h]
    simp [pyGet, pyOr, pyTruthy, hn, pyStrV]
  · intro m h h2
    unfold amlRiskStr amlRiskVal
    rw [h, h2]
    simp [pyGet, pyOr, pyTruthy]
  · intro m h h2
    unfold amlRiskStr amlRiskVal
    rw [h, h2]
    simp [pyGet, pyOr, pyTruthy]
  · intro m n h hn
    unfold amlAmountPart amlAmountVal
    rw [h]
    simp [pyGet, pyOr, pyTruthy, hn, pyStrV]
  · intro m h h2 h3
    unfold amlAmountPart amlAmountVal
    rw [h, h2, h3]
    simp [pyGet, pyOr, pyTruthy]
  · intro m h h2 h3
    unfold amlAmountPart amlAmountVal
    rw [h, h2, h3]
    simp [pyGet, pyOr, pyTruthy]

/-- Witness for C7 at concrete matches: risk 9 shows "9/10", amount 60000
shows " | SGD 60000", and the one-element envelope renders the header and
summary equation. -/
theorem c7_witness :
    amlRiskStr { risk_score := some (.vint 9) } = "9/10" ∧
    amlAmountPart { amount_sgd := some (.vint 60000) } = " | SGD 60000" ∧
    format_aml_results { matchList := some [c7Match] } =
      pyJoin "\n" (["**High-Risk Transactions:**",
        "Total: " ++ toString [c7Match].length ++ " transactions (showing up to first " ++
          toString (min [c7Match].length 20) ++ ")."] ++
        ([c7Match].take 20).flatMap amlMatchLines) :=
  ⟨c7_aml_writer_amended.2.1 _ 9 rfl (by decide),
   c7_aml_writer_amended.2.2.2.2.1 _ 60000 rfl (by decide),
   c7_aml_writer_amended.1 [c7Match] (List.cons_ne_nil _ _)⟩

/-! ### C2: the deadline-coverage metric miscounts blank/absent deadlines -/

set_option maxRecDepth 8000 in
/-- C2 failing-input evaluation.  On the spec's own fixture — five rows
matching the MAS-610/suspicious filters, three with a non-blank string
deadline and two with a blank/absent (NaN) cell — the claim demands
with_deadline = 3 (`deadlineSpecCaptured`, the spec's reading, counts 3),
but the code's test `str(r.get("deadline", "")).strip()` stringifies the
missing cell to the non-blank "nan" and counts it, so the engine computes
and narrates with_deadline = 5 and without_deadline = 0. -/
theorem c2_code_counts_missing_deadlines :
    (query_regulations c2Table c2Filters).length = 5 ∧
    ((query_regulations c2Table c2Filters).filter deadlineSpecCaptured).length = 3 ∧
    ((query_regulations c2Table c2Filters).filter deadlineCounted).length = 5 ∧
    strContains (metricAnswerOf (_reg_metric_answer c2Table c2Query "semantic_layer"))
      "the tagged regulatory data shows **5**" = true ∧
    strContains (metricAnswerOf (_reg_metric_answer c2Table c2Query "semantic_layer"))
      "- **With deadlines captured:** 5" = true ∧
    strContains (metricAnswerOf (_reg_metric_answer c2Table c2Query "semantic_layer"))
      "- **With deadlines captured:** 3" = false := by decide

/-! ### C3 and C4: envelope shape, count invariant, empty-result law -/

set_option linter.unusedTactic false
set_option linter.unreachableTactic false

/-- Every successful PII adapter result is an envelope whose hits list is
present, whose results key is absent, and whose count is that list's
length. -/
theorem pii_adapter_shape (env : Env) (q mode : String) (e : PiiToolResult)
    (h : _pii_results_for_mode env q mode = .ok e) :
    ∃ l, e.hits = some l ∧ e.results = none ∧ e.count = some l.length := by
  simp only [_pii_results_for_mode] at h
  split at h
  · split at h
    all_goals first
      | (injection h with h'
         subst h'
         exact ⟨_, rfl, rfl, rfl⟩)
      | (subst h
         exact ⟨_, rfl, rfl, rfl⟩)
      | simp at h
  · split at h
    all_goals first
      | (injection h with h'
         subst h'
         exact ⟨_, rfl, rfl, rfl⟩)
      | (subst h
         exact ⟨_, rfl, rfl, rfl⟩)
      | simp at h

/-- AML analogue of `pii_adapter_shape`. -/
theorem aml_adapter_shape (env : Env) (q mode : String) (e : AmlToolResult)
    (h : _aml_results_for_mode env q mode = .ok e) :
    ∃ l, e.matchList = some l ∧ e.results = none ∧ e.count = some l.length := by
  simp only [_aml_results_for_mode] at h
  split at h
  · split at h
    all_goals first
      | (injection h with h'
         subst h'
         exact ⟨_, rfl, rfl, rfl⟩)
      | (subst h
         exact ⟨_, rfl, rfl, rfl⟩)
      | simp at h
  · split at h
    all_goals first
      | (injection h with h'
         subst h'
         exact ⟨_, rfl, rfl, rfl⟩)
      | (subst h
         exact ⟨_, rfl, rfl, rfl⟩)
      | simp at h

/-- REG analogue of `pii_adapter_shape`. -/
theorem reg_adapter_shape (env : Env) (q mode : String) (e : RegToolResult)
    (h : _reg_results_for_mode env q mode = .ok e) :
    ∃ l, e.matchList = some l ∧ e.results = none ∧ e.count = some l.length := by
  simp only [_reg_results_for_mode] at h
  split at h
  · first
      | (injection h with h'
         subst h'
         exact ⟨_, rfl, rfl, rfl⟩)
      | (subst h
         exact ⟨_, rfl, rfl, rfl⟩)
  · split at h
    all_goals first
      | (injection h with h'
         subst h'
         exact ⟨_, rfl, rfl, rfl⟩)
      | (subst h
         exact ⟨_, rfl, rfl, rfl⟩)
      | simp at h

/-- C4.  For every query, mode and environment (tables and tool
behaviours), each per-domain adapter's envelope satisfies
count = length of its item list; the count is never set independently. -/
theorem c4_count_eq_length :
    ∀ (env : Env) (q mode : String),
      (∀ e, _pii_results_for_mode env q mode = .ok e →
        e.count = some ((e.hits.getD []).length)) ∧
      (∀ e, _aml_results_for_mode env q mode = .ok e →
        e.count = some ((e.matchList.getD []).length)) ∧
      (∀ e, _reg_results_for_mode env q mode = .ok e →
        e.count = some ((e.matchList.getD []).length)) := by
  intro env q mode
  refine ⟨?_, ?_, ?_⟩
  · intro e h
    obtain ⟨l, h1, _, h3⟩ := pii_adapter_shape env q mode e h
    rw [h1, h3]
    simp
  · intro e h
    obtain ⟨l, h1, _, h3⟩ := aml_adapter_shape env q mode e h
    rw [h1, h3]
    simp
  · intro e h
    obtain ⟨l, h1, _, h3⟩ := reg_adapter_shape env q mode e h
    rw [h1, h3]
    simp

/-- Witness for C4: the raw-mode adapters over the empty environment
produce the empty envelope with count 0 = length of the empty hits list. -/
theorem c4_witness :
    emptyPiiEnvelope.count = some ((emptyPiiEnvelope.hits.getD []).length) :=
  (c4_count_eq_length envA "x" "no_layer").1 emptyPiiEnvelope (by rfl)

/-- C3.  For each of the three search intents, an adapter envelope with
count 0 (equivalently an empty item list) makes the writer return exactly
"No results found for your query.". -/
theorem c3_empty_results_message :
    ∀ (env : Env) (q mode : String),
      (∀ e, _pii_results_for_mode env q mode = .ok e → e.count = some 0 →
        writer_node .PII_SEARCH { pii := some e } = noResultsSentence) ∧
      (∀ e, _aml_results_for_mode env q mode = .ok e → e.count = some 0 →
        writer_node .AML_SEARCH { aml := some e } = noResultsSentence) ∧
      (∀ e, _reg_results_for_mode env q mode = .ok e → e.count = some 0 →
        writer_node .REG_SEARCH { reg := some e } = noResultsSentence) := by
  intro env q mode
  refine ⟨?_, ?_, ?_⟩
  · intro e h hc
    obtain ⟨l, h1, h2, h3⟩ := pii_adapter_shape env q mode e h
    rw [h3] at hc
    injection hc with hc'
    have hl : l = [] := List.eq_nil_of_length_eq_zero hc'
    subst hl
    simp only [writer_node, Option.getD, format_pii_results]
    rw [h1, h2]
    simp [pyOrList, noResultsSentence]
  · intro e h hc
    obtain ⟨l, h1, h2, h3⟩ := aml_adapter_shape env q mode e h
    rw [h3] at hc
    injection hc with hc'
    have hl : l = [] := List.eq_nil_of_length_eq_zero hc'
    subst hl
    simp only [writer_node, Option.getD, format_aml_results]
    rw [h1, h2]
    simp [pyOrList, noResultsSentence]
  · intro e h hc
    obtain ⟨l, h1, h2, h3⟩ := reg_adapter_shape env q mode e h
    rw [h3] at hc
    injection hc with hc'
    have hl : l = [] := List.eq_nil_of_length_eq_zero hc'
    subst hl
    simp only [writer_node, Option.getD, format_reg_results]
    rw [h1, h2]
    simp [pyOrList, noResultsSentence]

/-- Witness for C3: empty raw-mode envelopes in all three domains produce
the exact empty-result sentence. -/
theorem c3_witness :
    writer_node .PII_SEARCH { pii := some emptyPiiEnvelope } = noResultsSentence ∧
    writer_node .AML_SEARCH { aml := some emptyAmlEnvelope } = noResultsSentence ∧
    writer_node .REG_SEARCH { reg := some emptyRegEnvelope } = noResultsSentence :=
  ⟨(c3_empty_results_message envA "x" "no_layer").1 emptyPiiEnvelope (by rfl) rfl,
   (c3_empty_results_message envA "x" "no_layer").2.1 emptyAmlEnvelope (by rfl) rfl,
   (c3_empty_results_message envA "x" "no_layer").2.2 emptyRegEnvelope (by rfl) rfl⟩

/-! ### C8: raw-mode SAR drafting is fixed and data-independent -/

/-- C8.  For every SAR-classified query evaluated in raw mode ("no_layer"),
the answer is the SAR header naming the extracted-or-default transaction id
followed by the fixed baseline-limitation sentence, and it is identical for
any two environments — no AML table or tagged AML tool influences it. -/
theorem c8_sar_raw_mode_fixed :
    ∀ (env env2 : Env) (q : String), simple_intent_router q = .SAR_DRAFT →
      core_answer env q "no_layer" =
        .ok ("**SAR Drafted for " ++ sarTxOf q ++ "**\n" ++ baselineSarDraft) ∧
      core_answer env q "no_layer" = core_answer env2 q "no_layer" := by
  have key : ∀ (env : Env) (q : String), simple_intent_router q = .SAR_DRAFT →
      core_answer env q "no_layer" =
        .ok ("**SAR Drafted for " ++ sarTxOf q ++ "**\n" ++ baselineSarDraft) := by
    intro env q hint
    unfold core_answer
    rw [hint]
    simp only [sarTxOf]
    by_cases hx : (extract_tx_id q == "") = true
    · simp [hx, writer_node, format_sar_result, baselineSar, pyGet, pyOr, pyTruthy, pyStrV,
        baselineSarDraft]
    · simp only [Bool.not_eq_true] at hx
      simp [hx, writer_node, format_sar_result, baselineSar, pyGet, pyOr, pyTruthy, pyStrV,
        baselineSarDraft]
  intro env env2 q hint
  exact ⟨key env q hint, (key env q hint).trans (key env2 q hint).symm⟩

/-- Witness for C8: the golden SAR query under two environments that differ
in their AML table and tagged AML tool. -/
theorem c8_witness :
    core_answer envA "Draft a SAR for transaction T028" "no_layer" =
      .ok ("**SAR Drafted for " ++ sarTxOf "Draft a SAR for transaction T028" ++
        "**\n" ++ baselineSarDraft) ∧
    core_answer envA "Draft a SAR for transaction T028" "no_layer" =
      core_answer envB "Draft a SAR for transaction T028" "no_layer" :=
  c8_sar_raw_mode_fixed envA envB "Draft a SAR for transaction T028" (by decide)

/-! ### C10: traced and plain orchestrators -/

/-- C10 counterexample.  The claim says the traced orchestrator's answer
equals the plain one for every query, including OUT_OF_SCOPE queries.  On
the out-of-scope query "hello" the two fixed guidance sentences differ
("... AML high-risk transactions ... in our synthetic dataset." versus
"... AML, MAS 610 regulations, or SAR drafting."). -/
theorem c10_counterexample :
    traceAnswerOf (core_answer_with_trace envA "hello" "semantic_layer") ≠
      plainAnswerOf (core_answer envA "hello" "semantic_layer") := by decide

/-- C10 as amended.  For every query whose intent is not OUT_OF_SCOPE the
traced orchestrator's answer equals the plain one (including raised
exceptions); for OUT_OF_SCOPE queries both return fixed guidance sentences,
but with different wording. -/
theorem c10_trace_answer_agreement_amended :
    ∀ (env : Env) (q mode : String),
      (simple_intent_router q ≠ .OUT_OF_SCOPE →
        traceAnswerOf (core_answer_with_trace env q mode) =
          plainAnswerOf (core_answer env q mode)) ∧
      (simple_intent_router q = .OUT_OF_SCOPE →
        plainAnswerOf (core_answer env q mode) = some outOfScopeAnswer ∧
        traceAnswerOf (core_answer_with_trace env q mode) = some outOfScopeAnswerTrace) := by
  intro env q mode
  cases hI : simple_intent_router q with
  | OUT_OF_SCOPE =>
    constructor
    · intro hne
      exact absurd rfl hne
    · intro _
      simp [core_answer, core_answer_with_trace, hI, plainAnswerOf, traceAnswerOf]
  | PII_SEARCH =>
    constructor
    · intro _
      simp only [core_answer, core_answer_with_trace, hI]
      rcases h : _pii_results_for_mode env q mode with e | res <;>
        simp [h, traceAnswerOf, plainAnswerOf]
    · intro h
      exact absurd h (by simp)
  | AML_SEARCH =>
    constructor
    · intro _
      simp only [core_answer, core_answer_with_trace, hI]
      rcases h : _aml_results_for_mode env q mode with e | res <;>
        simp [h, traceAnswerOf, plainAnswerOf]
    · intro h
      exact absurd h (by simp)
  | REG_SEARCH =>
    constructor
    · intro _
      simp only [core_answer, core_answer_with_trace, hI]
      rcases hm : _reg_metric_answer env.reg_tagged_table q mode with e | om
      · simp [hm, traceAnswerOf, plainAnswerOf]
      · cases om with
        | some m => simp [hm, traceAnswerOf, plainAnswerOf]
        | none =>
          simp only [hm]
          rcases hr : _reg_results_for_mode env q mode with e | res <;>
            simp [hr, traceAnswerOf, plainAnswerOf]
    · intro h
      exact absurd h (by simp)
  | SAR_DRAFT =>
    constructor
    · intro _
      simp only [core_answer, core_answer_with_trace, hI]
      by_cases hmode : (mode == "no_layer") = true <;>
        simp [hmode, traceAnswerOf, plainAnswerOf]
    · intro h
      exact absurd h (by simp)

/-- Witness for C10: the two orchestrators agree on the golden SAR query in
raw mode. -/
theorem c10_witness :
    traceAnswerOf (core_answer_with_trace envA "Draft a SAR for transaction T028" "no_layer") =
      plainAnswerOf (core_answer envA "Draft a SAR for transaction T028" "no_layer") :=
  (c10_trace_answer_agreement_amended envA "Draft a SAR for transaction T028" "no_layer").1
    (by decide)

end MetaTag
